import Mathlib

/-!
Shallow embedding of the posts router (src/unnamed/part_000) of the
devconnector backend.  Each Express handler becomes a pure Lean function
from the outcome of the `Post.findById` lookup (and the request data) to
the HTTP response together with the post document as it is stored after
the request.  User ids (Mongo ObjectIds, compared in the source through
`toString()`) are modelled as `String`.
-/

/-- One entry of a post's `likes` array: `{ user: <id> }`. -/
structure LikeEntry where
  user : String
deriving DecidableEq, Repr

/-- One entry of a post's `comments` array.  Mongoose assigns the
subdocument id on save; the handlers read it through the `.id` string
getter. -/
structure Comment where
  id : String
  user : String
  text : String
  name : String
  avatar : String
deriving DecidableEq, Repr

/-- A Post document as used by the routes: owner reference, text, the
denormalized name/avatar snapshot, likes and comments. -/
structure Post where
  user : String
  text : String
  name : String
  avatar : String
  likes : List LikeEntry
  comments : List Comment
deriving DecidableEq, Repr

/-- The caller's User document after `.select("-password")`: the handlers
only read `name` and `avatar` from it. -/
structure UserDoc where
  name : String
  avatar : String
deriving DecidableEq, Repr

/-- Outcome of `await Post.findById(req.params.id)`:
`found` (document), `missing` (resolved to `null`), or `castError`
(malformed id; mongoose throws an error with `kind === 'ObjectId'`). -/
inductive FindResult where
  | found (post : Post)
  | missing
  | castError
deriving DecidableEq, Repr

/-- What a handler produces: HTTP status, JSON body on success, and the
post document stored under the requested id after the request (`none`
when it does not exist or was removed). -/
structure RouteResult (β : Type) where
  status : Nat
  body : Option β
  store : Option Post
deriving DecidableEq, Repr

/-- The stored document corresponding to a lookup outcome, unchanged. -/
def FindResult.store : FindResult → Option Post
  | .found post => some post
  | .missing => none
  | .castError => none

/-- The `check("text", ...).not().isEmpty()` validator: the request must
carry a `text` field and it must be non-empty. -/
def validText : Option String → Bool
  | none => false
  | some s => !(s == "")

/-- POST api/posts (part_000 lines 14-41): validate `text`, snapshot the
caller's name/avatar, persist a new Post owned by the caller and return
it. -/
def createPost (callerId : String) (user : UserDoc) (text : Option String) :
    RouteResult Post :=
  if validText text then
    let newPost : Post :=
      { user := callerId
        text := text.getD ""
        name := user.name
        avatar := user.avatar
        likes := []
        comments := [] }
    ⟨200, some newPost, some newPost⟩
  else
    ⟨400, none, none⟩

/-- DELETE api/posts/:id (part_000 lines 81-101): 404 on null lookup and
on ObjectId cast errors, 401 unless the caller owns the post, otherwise
remove the document and confirm. -/
def deletePost (lookup : FindResult) (callerId : String) : RouteResult String :=
  match lookup with
  | .missing => ⟨404, none, none⟩
  | .castError => ⟨404, none, none⟩
  | .found post =>
    if post.user ≠ callerId then
      ⟨401, none, some post⟩
    else
      ⟨200, some "Post removed successfully", none⟩

/-- PUT api/posts/like/:id (part_000 lines 107-122): dereferencing the
null lookup throws, so missing posts land in the catch-all 500; a caller
already in `likes` gets 400; otherwise `unshift({user})`, save, return
the likes. -/
def likePost (lookup : FindResult) (callerId : String) :
    RouteResult (List LikeEntry) :=
  match lookup with
  | .missing => ⟨500, none, none⟩
  | .castError => ⟨500, none, none⟩
  | .found post =>
    if (post.likes.filter (fun l => l.user == callerId)).length > 0 then
      ⟨400, none, some post⟩
    else
      let newLikes := { user := callerId } :: post.likes
      ⟨200, some newLikes, some { post with likes := newLikes }⟩

/-- PUT api/posts/unlike/:id (part_000 lines 128-146): 500 on null
lookup, 400 when the caller is absent from `likes`, otherwise remove the
entry at `map(user).indexOf(caller)` via `splice(removeIndex, 1)`.  The
guard guarantees the scanned id is present, so JS `indexOf`'s `-1` case
is unreachable and `List.eraseIdx` at the found index matches `splice`. -/
def unlikePost (lookup : FindResult) (callerId : String) :
    RouteResult (List LikeEntry) :=
  match lookup with
  | .missing => ⟨500, none, none⟩
  | .castError => ⟨500, none, none⟩
  | .found post =>
    if (post.likes.filter (fun l => l.user == callerId)).length = 0 then
      ⟨400, none, some post⟩
    else
      let removeIndex := (post.likes.map (fun l => l.user)).indexOf callerId
      let newLikes := post.likes.eraseIdx removeIndex
      ⟨200, some newLikes, some { post with likes := newLikes }⟩

/-- POST api/posts/comment/:id (part_000 lines 152-179): the validator
runs before the try block, so empty text is a 400 even when the post id
matches nothing; with valid text a null lookup is dereferenced and lands
in the catch-all 500; otherwise the new comment (fresh id `newId`
assigned by the store on save) is `unshift`ed and the comments
returned. -/
def addComment (lookup : FindResult) (callerId : String) (user : UserDoc)
    (text : Option String) (newId : String) : RouteResult (List Comment) :=
  if validText text then
    match lookup with
    | .missing => ⟨500, none, none⟩
    | .castError => ⟨500, none, none⟩
    | .found post =>
      let newComment : Comment :=
        { id := newId
          user := callerId
          text := text.getD ""
          name := user.name
          avatar := user.avatar }
      let newComments := newComment :: post.comments
      ⟨200, some newComments, some { post with comments := newComments }⟩
  else
    ⟨400, none, lookup.store⟩

/-- DELETE api/posts/comment/:id/:comment_id (part_000 lines 184-212):
500 on null lookup; find the comment by id (404 if absent); 401 unless
the caller authored it; then compute the removal index by scanning
`map(comment.user).indexOf(caller)` — matching the user, not the comment
id — and `splice` there.  The authorization guard guarantees a comment
with the caller's user id is present, so `indexOf` cannot return the JS
`-1`. -/
def deleteComment (lookup : FindResult) (callerId commentId : String) :
    RouteResult (List Comment) :=
  match lookup with
  | .missing => ⟨500, none, none⟩
  | .castError => ⟨500, none, none⟩
  | .found post =>
    match post.comments.find? (fun c => c.id == commentId) with
    | none => ⟨404, none, some post⟩
    | some comment =>
      if comment.user ≠ callerId then
        ⟨401, none, some post⟩
      else
        let removeIndex := (post.comments.map (fun c => c.user)).indexOf callerId
        let newComments := post.comments.eraseIdx removeIndex
        ⟨200, some newComments, some { post with comments := newComments }⟩

/-- The spec's invariant on likes: each user appears at most once. -/
def likesNodup (post : Post) : Prop := (post.likes.map LikeEntry.user).Nodup

/-! Sample documents used by the concrete witnesses below. -/

/-- A caller's user document for witnesses. -/
def sampleUser : UserDoc := ⟨"Ada", "a.png"⟩

/-- A post with no likes and no comments, owned by `owner1`. -/
def samplePost : Post := ⟨"owner1", "hello", "Ada", "a.png", [], []⟩

/-- First comment of the demo post: id `c1`, authored by `u1`. -/
def c1CommentA : Comment := ⟨"c1", "u1", "first", "Ada", "a.png"⟩

/-- Second comment of the demo post: id `c2`, also authored by `u1`. -/
def c1CommentB : Comment := ⟨"c2", "u1", "second", "Ada", "a.png"⟩

/-- A post holding two comments by the same author `u1`. -/
def c1DemoPost : Post := ⟨"owner", "hello", "Ada", "a.png", [], [c1CommentA, c1CommentB]⟩

/-! Helper lemmas about the like handler, shared by several claims. -/

/-- When some like entry already carries the caller's id, the guard at
line 112 fires: 400, nothing mutated. -/
theorem likePost_of_present (post : Post) (callerId : String)
    (h : ∃ l ∈ post.likes, l.user = callerId) :
    likePost (.found post) callerId = ⟨400, none, some post⟩ := by
  obtain ⟨l, hl, hu⟩ := h
  have hpos : 0 < (post.likes.filter (fun l => l.user == callerId)).length := by
    refine List.length_pos.mpr (fun hnil => ?_)
    have := List.filter_eq_nil_iff.mp hnil l hl
    simp [hu] at this
  simp [likePost, hpos]

/-- When no like entry carries the caller's id, the handler prepends
`{user := callerId}` and saves. -/
theorem likePost_of_absent (post : Post) (callerId : String)
    (h : ∀ l ∈ post.likes, l.user ≠ callerId) :
    likePost (.found post) callerId =
      ⟨200, some ({ user := callerId } :: post.likes),
        some { post with likes := { user := callerId } :: post.likes }⟩ := by
  have hnil : post.likes.filter (fun l => l.user == callerId) = [] :=
    List.filter_eq_nil_iff.mpr (fun l hl => by simpa using h l hl)
  simp [likePost, hnil]

/-- C2: liking an existing post returns 400 and leaves the likes array
unchanged when the caller already appears in it, and otherwise prepends
`{user := caller}`, persists, and returns the updated likes array. -/
theorem likePost_guard_and_prepend (post : Post) (callerId : String) :
    ((∃ l ∈ post.likes, l.user = callerId) →
      likePost (.found post) callerId = ⟨400, none, some post⟩)
    ∧ ((∀ l ∈ post.likes, l.user ≠ callerId) →
      likePost (.found post) callerId =
        ⟨200, some ({ user := callerId } :: post.likes),
          some { post with likes := { user := callerId } :: post.likes }⟩) :=
  ⟨likePost_of_present post callerId, likePost_of_absent post callerId⟩

/-- Witness for C2 at a concrete post with empty likes. -/
theorem likePost_guard_and_prepend_witness :
    likePost (.found samplePost) "u9" =
      ⟨200, some ({ user := "u9" } :: samplePost.likes),
        some { samplePost with likes := { user := "u9" } :: samplePost.likes }⟩ :=
  (likePost_guard_and_prepend samplePost "u9").2 (by decide)

/-- C3: when the caller is absent from a post's likes, liking and then
unliking restores the likes array (and the whole stored post) to its
pre-like state: the unlike scan finds the prepended entry at index 0. -/
theorem like_then_unlike_roundtrip (post : Post) (callerId : String)
    (h : ∀ l ∈ post.likes, l.user ≠ callerId) :
    ∀ post1, (likePost (.found post) callerId).store = some post1 →
      unlikePost (.found post1) callerId = ⟨200, some post.likes, some post⟩ := by
  intro post1 hstore
  rw [likePost_of_absent post callerId h] at hstore
  obtain rfl : ({ post with likes := { user := callerId } :: post.likes } : Post)
      = post1 := Option.some.inj hstore
  have hfilter : ((({ user := callerId } : LikeEntry) :: post.likes).filter
      (fun l => l.user == callerId)).length ≠ 0 := by
    simp [List.filter_cons]
  have hidx : ((({ user := callerId } : LikeEntry) :: post.likes).map
      (fun l => l.user)).indexOf callerId = 0 := by
    simp [List.indexOf_cons_self]
  simp [unlikePost, hfilter, hidx]

/-- Witness for C3: round-trip on the sample post for caller `u9`. -/
theorem like_then_unlike_roundtrip_witness :
    unlikePost (.found { samplePost with likes := [{ user := "u9" }] }) "u9" =
      ⟨200, some samplePost.likes, some samplePost⟩ :=
  like_then_unlike_roundtrip samplePost "u9" (by decide)
    { samplePost with likes := [{ user := "u9" }] } (by decide)

/-- C4: both like and unlike preserve the invariant that each user
appears at most once in a post's likes array, so no sequence of
like/unlike requests can duplicate a user reference. -/
theorem like_unlike_preserve_likesNodup (post : Post) (callerId : String)
    (h : likesNodup post) :
    (∀ p1, (likePost (.found post) callerId).store = some p1 → likesNodup p1)
    ∧ (∀ p2, (unlikePost (.found post) callerId).store = some p2 → likesNodup p2) := by
  constructor
  · intro p1 hp1
    by_cases hc : ∃ l ∈ post.likes, l.user = callerId
    · rw [likePost_of_present post callerId hc] at hp1
      obtain rfl := Option.some.inj hp1
      exact h
    · push_neg at hc
      rw [likePost_of_absent post callerId hc] at hp1
      obtain rfl := Option.some.inj hp1
      refine List.nodup_cons.mpr ⟨?_, h⟩
      intro hmem
      obtain ⟨l, hl, hu⟩ := List.mem_map.mp hmem
      exact hc l hl hu
  · intro p2 hp2
    by_cases hg : (post.likes.filter (fun l => l.user == callerId)).length = 0
    · simp only [unlikePost, if_pos hg] at hp2
      obtain rfl := Option.some.inj hp2
      exact h
    · simp only [unlikePost, if_neg hg] at hp2
      obtain rfl := Option.some.inj hp2
      exact h.sublist ((List.eraseIdx_sublist _ _).map _)

/-- Witness for C4: liking the sample post preserves the invariant. -/
theorem like_unlike_preserve_likesNodup_witness :
    likesNodup { samplePost with likes := [{ user := "u9" }] } :=
  (like_unlike_preserve_likesNodup samplePost "u9" (by simp [likesNodup, samplePost])).1
    { samplePost with likes := [{ user := "u9" }] } (by decide)

/-- C1: when a comment with the requested id exists and is authored by
the caller, the delete-comment handler removes the entry at the index of
the FIRST comment whose user matches the caller — scanning by user, not
by comment id — so the removed comment need not be the one identified by
`comment_id`: on the demo post, deleting comment `c2` removes the
earlier comment `c1` and leaves `c2` in place. -/
theorem deleteComment_scans_by_user_not_id :
    (∀ (post : Post) (callerId commentId : String) (c : Comment),
      post.comments.find? (fun k => k.id == commentId) = some c →
      c.user = callerId →
      deleteComment (.found post) callerId commentId =
        ⟨200,
          some (post.comments.eraseIdx
            ((post.comments.map (fun k => k.user)).indexOf callerId)),
          some { post with comments := (post.comments.eraseIdx
            ((post.comments.map (fun k => k.user)).indexOf callerId)) }⟩)
    ∧ (deleteComment (.found c1DemoPost) "u1" "c2").body = some [c1CommentB]
    ∧ c1CommentB.id = "c2" ∧ c1CommentA.id ≠ "c2" := by
  refine ⟨?_, by decide, by decide, by decide⟩
  intro post callerId commentId c hfind hu
  simp [deleteComment, hfind, hu]

/-- Witness for C1 on the demo post: both guards pass for comment id
`c2` and the handler removes at the first-user-match index. -/
theorem deleteComment_scans_by_user_not_id_witness :
    deleteComment (.found c1DemoPost) "u1" "c2" =
      ⟨200,
        some (c1DemoPost.comments.eraseIdx
          ((c1DemoPost.comments.map (fun k => k.user)).indexOf "u1")),
        some { c1DemoPost with comments := (c1DemoPost.comments.eraseIdx
          ((c1DemoPost.comments.map (fun k => k.user)).indexOf "u1")) }⟩ :=
  deleteComment_scans_by_user_not_id.1 c1DemoPost "u1" "c2" c1CommentB
    (by decide) (by decide)

/-- C5: delete-comment on an existing post returns 404 when no comment
has the requested id and 401 when the found comment's author is not the
caller; in both cases the stored post (hence its comments array) is
unchanged. -/
theorem deleteComment_failure_guards (post : Post) (callerId commentId : String) :
    (post.comments.find? (fun c => c.id == commentId) = none →
      deleteComment (.found post) callerId commentId = ⟨404, none, some post⟩)
    ∧ (∀ c, post.comments.find? (fun c => c.id == commentId) = some c →
        c.user ≠ callerId →
        deleteComment (.found post) callerId commentId = ⟨401, none, some post⟩) := by
  constructor
  · intro h
    simp [deleteComment, h]
  · intro c hc hu
    simp [deleteComment, hc, hu]

/-- Witness for C5: a non-authoring caller gets 401 and an unchanged
post on the demo post. -/
theorem deleteComment_failure_guards_witness :
    deleteComment (.found c1DemoPost) "intruder" "c2" = ⟨401, none, some c1DemoPost⟩ :=
  (deleteComment_failure_guards c1DemoPost "intruder" "c2").2 c1CommentB
    (by decide) (by decide)

/-- C10: when both delete-comment guards pass, the user-scan index is in
range (JS indexOf cannot yield -1 there) and the splice removes exactly
one comment: the returned comments array is one shorter than before. -/
theorem deleteComment_removes_exactly_one (post : Post)
    (callerId commentId : String) (c : Comment)
    (hfind : post.comments.find? (fun k => k.id == commentId) = some c)
    (hu : c.user = callerId) :
    (post.comments.map (fun k => k.user)).indexOf callerId < post.comments.length
    ∧ ∀ cs, (deleteComment (.found post) callerId commentId).body = some cs →
        cs.length + 1 = post.comments.length := by
  have hmem : c ∈ post.comments := List.mem_of_find?_eq_some hfind
  have hmem2 : callerId ∈ post.comments.map (fun k => k.user) :=
    List.mem_map.mpr ⟨c, hmem, hu⟩
  have hlt : (post.comments.map (fun k => k.user)).indexOf callerId <
      (post.comments.map (fun k => k.user)).length :=
    List.indexOf_lt_length.mpr hmem2
  rw [List.length_map] at hlt
  refine ⟨hlt, ?_⟩
  intro cs hcs
  simp only [deleteComment, hfind, hu, ne_eq, not_true_eq_false, if_false] at hcs
  obtain rfl := Option.some.inj hcs
  rw [List.length_eraseIdx, if_pos hlt]
  omega

/-- Witness for C10: on the demo post the scan index is in range and the
two comments shrink to one. -/
theorem deleteComment_removes_exactly_one_witness :
    ((c1DemoPost.comments.map (fun k => k.user)).indexOf "u1"
        < c1DemoPost.comments.length)
    ∧ ([c1CommentB].length + 1 = c1DemoPost.comments.length) := by
  have h := deleteComment_removes_exactly_one c1DemoPost "u1" "c2" c1CommentB
    (by decide) (by decide)
  exact ⟨h.1, h.2 [c1CommentB] (by decide)⟩

/-- C6: delete-post returns 404 on a missing id and on a malformed id
(never 500), 401 with the post untouched when the caller is not the
owner, and removes the document with a confirmation when the caller is
the owner. -/
theorem deletePost_owner_only (callerId : String) :
    deletePost .missing callerId = ⟨404, none, none⟩
    ∧ deletePost .castError callerId = ⟨404, none, none⟩
    ∧ ∀ post : Post,
        (post.user ≠ callerId →
          deletePost (.found post) callerId = ⟨401, none, some post⟩)
        ∧ (post.user = callerId →
          deletePost (.found post) callerId =
            ⟨200, some "Post removed successfully", none⟩) := by
  refine ⟨rfl, rfl, fun post => ⟨fun h => ?_, fun h => ?_⟩⟩
  · simp [deletePost, h]
  · simp [deletePost, h]

/-- Witness for C6: a non-owner deleting the sample post gets 401 and
the post survives. -/
theorem deletePost_owner_only_witness :
    deletePost (.found samplePost) "intruder" = ⟨401, none, some samplePost⟩ :=
  ((deletePost_owner_only "intruder").2.2 samplePost).1 (by decide)

/-- C7: create-post rejects an empty or missing text with 400 and
persists nothing; with non-empty text it persists and returns a new post
owned by the caller carrying the caller's snapshotted name and avatar,
with empty likes and comments. -/
theorem createPost_validates_and_persists (callerId : String) (user : UserDoc)
    (text : Option String) :
    (validText text = false → createPost callerId user text = ⟨400, none, none⟩)
    ∧ (∀ s, text = some s → s ≠ "" →
        createPost callerId user text =
          ⟨200, some ⟨callerId, s, user.name, user.avatar, [], []⟩,
            some ⟨callerId, s, user.name, user.avatar, [], []⟩⟩) := by
  constructor
  · intro h
    simp [createPost, h]
  · rintro s rfl hs
    have hv : validText (some s) = true := by simp [validText, hs]
    simp [createPost, hv]

/-- Witness for C7: creating a post with text `hello`. -/
theorem createPost_validates_and_persists_witness :
    createPost "u9" sampleUser (some "hello") =
      ⟨200, some ⟨"u9", "hello", sampleUser.name, sampleUser.avatar, [], []⟩,
        some ⟨"u9", "hello", sampleUser.name, sampleUser.avatar, [], []⟩⟩ :=
  (createPost_validates_and_persists "u9" sampleUser (some "hello")).2 "hello"
    rfl (by decide)

/-- C8: adding a comment with non-empty text to an existing post returns
200 and the new comment is prepended at index 0 (its text is the
submitted text), every pre-existing comment shifts up by one position,
and the updated comments array is persisted. -/
theorem addComment_prepends (post : Post) (callerId : String) (user : UserDoc)
    (s newId : String) (hs : s ≠ "") :
    ∀ cs, (addComment (.found post) callerId user (some s) newId).body = some cs →
      (addComment (.found post) callerId user (some s) newId).status = 200
      ∧ cs = ⟨newId, callerId, s, user.name, user.avatar⟩ :: post.comments
      ∧ cs.head?.map Comment.text = some s
      ∧ (∀ i, cs.get? (i + 1) = post.comments.get? i)
      ∧ (addComment (.found post) callerId user (some s) newId).store =
          some { post with comments := cs } := by
  have hv : validText (some s) = true := by simp [validText, hs]
  intro cs hcs
  have hbody : (addComment (.found post) callerId user (some s) newId).body =
      some (⟨newId, callerId, s, user.name, user.avatar⟩ :: post.comments) := by
    simp [addComment, hv]
  rw [hbody] at hcs
  obtain rfl := Option.some.inj hcs
  refine ⟨by simp [addComment, hv], rfl, rfl, fun i => rfl, by simp [addComment, hv]⟩

/-- Witness for C8: commenting `nice` on the demo post. -/
theorem addComment_prepends_witness :
    (addComment (.found c1DemoPost) "u9" sampleUser (some "nice") "c9").status = 200
    ∧ ((⟨"c9", "u9", "nice", sampleUser.name, sampleUser.avatar⟩ : Comment)
          :: c1DemoPost.comments).head?.map Comment.text = some "nice"
    ∧ ((⟨"c9", "u9", "nice", sampleUser.name, sampleUser.avatar⟩ : Comment)
          :: c1DemoPost.comments).get? 1 = c1DemoPost.comments.get? 0 := by
  have h := addComment_prepends c1DemoPost "u9" sampleUser "nice" "c9" (by decide)
    (⟨"c9", "u9", "nice", sampleUser.name, sampleUser.avatar⟩ :: c1DemoPost.comments)
    (by decide)
  exact ⟨h.1, h.2.2.1, h.2.2.2.1 0⟩

/-- C9: a like, unlike, or (validly filled) add-comment request whose
post lookup resolves to null dereferences the null post, lands in the
catch-all, and answers 500 rather than 404. -/
theorem missing_post_gives_500 (callerId newId : String) (user : UserDoc)
    (text : Option String) :
    likePost .missing callerId = ⟨500, none, none⟩
    ∧ unlikePost .missing callerId = ⟨500, none, none⟩
    ∧ (validText text = true →
        addComment .missing callerId user text newId = ⟨500, none, none⟩) := by
  refine ⟨rfl, rfl, fun h => ?_⟩
  simp [addComment, h]

/-- Witness for C9 with a concrete caller and comment text. -/
theorem missing_post_gives_500_witness :
    likePost .missing "u9" = ⟨500, none, none⟩
    ∧ unlikePost .missing "u9" = ⟨500, none, none⟩
    ∧ addComment .missing "u9" sampleUser (some "hi") "c9" = ⟨500, none, none⟩ := by
  obtain ⟨h1, h2, h3⟩ := missing_post_gives_500 "u9" "c9" sampleUser (some "hi")
  exact ⟨h1, h2, h3 (by decide)⟩
